import Mathlib

/-!
Shallow embedding of `src/bcache/datao.go` (package bcache) from
liupengs/aggregation-cache.

Modelling conventions:
* Go `uint32` values become `Nat` with explicit wrap-around: `inc32`/`dec32`
  compute `(x+1) % 2^32` and `(x + 2^32 - 1) % 2^32`, matching unsigned
  increment/decrement.
* Go arrays/slices of `uint32` become total functions `Nat → Nat`; bitmaps
  (the external `utils.BitMap` primitive, `set`/`test`) become `Nat → Bool`.
* The partition lock serialises every mutation, so each locked section is one
  atomic step of the model; `sync.Cond.Wait` in `Get` is modelled by the
  distinguished outcome `GetOut.blocked`, and the code a woken caller runs
  (lines 208-220 of datao.go) is the separate function `getAfterWake`.
  `cond.Signal` is modelled as a `Bool` result ("a signal was issued").
* `rand.Uint32()` becomes an explicit parameter `r : Nat`; each code path of
  the functions below draws at most once.
* A Go runtime panic that the modelled code can actually reach (the integer
  modulo-by-zero in `getRandomCachedFile` when `cachedFileNum = 0`) is the
  explicit outcome `.panic` of the result types.
* `readFromBackend` and the dataset catalog are external collaborators; they
  are parameters (`fetch : Nat → Option FileNode`, fields of `Dataset`).
-/

namespace Bcache

/-- Wrap-around for a Go `uint32` increment. -/
def inc32 (x : Nat) : Nat := (x + 1) % 4294967296

/-- Wrap-around for a Go `uint32` decrement. -/
def dec32 (x : Nat) : Nat := (x + 4294967295) % 4294967296

/-- Pointwise update of a `Nat → Nat` array model. -/
def fupd (f : Nat → Nat) (i v : Nat) : Nat → Nat :=
  fun j => if j = i then v else f j

/-- Pointwise update of the dataset's content-cache map. -/
def cupd (f : Nat → Option α) (i : Nat) (v : Option α) : Nat → Option α :=
  fun j => if j = i then v else f j

/-- Model of `utils.BitMap.Set`: set bit `i`. -/
def bmSet (b : Nat → Bool) (i : Nat) : Nat → Bool :=
  fun j => if j = i then true else b j

/-- A fetched file. In datao.go only the `fileId` field of the external
`FileNode` is inspected; `data` stands for the opaque content. -/
structure FileNode where
  fileId : Nat
  data : Nat
deriving DecidableEq

/-- Static metadata of one dataset partition (`Group`), as read by datao.go:
`group.id`, `group.fileNum`, `group.allowCacheSize`, `group.cachedSize`.
datao.go never writes any of these fields. -/
structure Group where
  id : Nat
  fileNum : Nat
  allowCacheSize : Nat
  cachedSize : Nat
deriving DecidableEq

/-- The mutable per-partition state `DLTGroup` (datao.go lines 30-52).
The `lock`, `cond` and `dlt` back-pointer fields are represented by the
modelling conventions above rather than by data. -/
structure DLTGroup where
  hasWiated : Int
  group : Group
  readedFilesReal : Nat → Bool
  readedFilesCache : Nat → Bool
  unreadFileNum : Nat
  unreadFilesIndexs : Nat → Nat
  unreadFiles : Nat → Nat
  readedCachedFileNum : Nat
  readedCachedFiles : Nat → Nat
  prereadFileNum : Nat
  cachedFileNum : Nat
  cacheedFilesCache : Nat → Nat
  cachedFiles : Nat → Nat

/-- One iteration of the allocation loop in `DLT.init` (lines 69-95):
fresh bitmaps and zeroed slices (Go `make` zero-fills), with
`unreadFileNum` set to the partition's file count. -/
def initGroup (grp : Group) : DLTGroup where
  hasWiated := 0
  group := grp
  readedFilesReal := fun _ => false
  readedFilesCache := fun _ => false
  unreadFileNum := grp.fileNum
  unreadFilesIndexs := fun _ => 0
  unreadFiles := fun _ => 0
  readedCachedFileNum := 0
  readedCachedFiles := fun _ => 0
  prereadFileNum := 0
  cachedFileNum := 0
  cacheedFilesCache := fun _ => 0
  cachedFiles := fun _ => 0

/-- The external dataset catalog, as consumed by datao.go: name resolution,
file-to-partition mapping, and per-partition metadata. -/
structure Dataset where
  id : Nat
  groupNum : Nat
  groupsMeta : Nat → Group
  getFileId : String → Option Nat
  fileIdToGroups : Nat → Nat

/-- The pass controller `DLT` (lines 54-61). The `dataset` back-pointer is
passed as a parameter where needed; `dataset.cachedFiles` (the mutable shared
content cache) lives in `SysState`. -/
structure DLT where
  id : Nat
  fileNum : Nat
  readedFileNum : Nat
  groups : List DLTGroup
  inited : Bool

/-- Mutable system state threaded through `Get`: the pass state plus the
dataset's shared content cache `dataset.cachedFiles`. -/
structure SysState where
  dlt : DLT
  dsCache : Nat → Option FileNode

/-- Model of `DLT.init` (lines 63-99): allocate one `DLTGroup` per partition and mark
the pass initialized. Bitmap allocation is modelled as always succeeding. -/
def dltInit (t : DLT) (ds : Dataset) : DLT :=
  { t with
    groups := (List.range ds.groupNum).map (fun i => initGroup (ds.groupsMeta i))
    inited := true }

/-- Result codes of datao.go's `Get`. -/
inductive ErrorCode where
  | CODE_OK
  | CODE_EMPTY
  | CODE_DLT_NOT_INIT
  | CODE_NOT_FOUND
deriving DecidableEq

/-- The distinct `error` values datao.go can return, one constructor per
`fmt.Errorf` site (plus the propagated backend-fetch error). -/
inductive GoErr where
  | readAgain (fileId : Nat)            -- "read angin %d" (line 132)
  | noCacheButNum (n : Nat)             -- "don't have cache, but cachedFileNum is %d" (line 143)
  | noUnreadButNum (n : Nat)            -- "don't have unreaded file, but unreadFileNum is %d" (line 161)
  | fetchFailed                         -- error propagated from readFromBackend (line 190)
  | noCacheButCondition                 -- "don't have cache, but get condition" (line 214)
  | noUnreadFile (fileId : Nat)         -- "don't have unread file, when try to read %d" (line 223)
  | cantGetCachedFile                   -- "can't get cached file" (lines 237, 242)
  | markedCachedButNot (id : Nat)       -- "file %d is mark as cached , but not cached" (line 251)
deriving DecidableEq

/-- Result of a state-mutating call that can hit a Go runtime panic. -/
inductive Res (α : Type) (σ : Type) where
  | ok (a : α) (s : σ)
  | panic
deriving DecidableEq

/-- Outcome of `Get`: a returned `(node, code, err)` triple, suspension on the
condition variable (line 207), or a runtime panic. -/
inductive GetOut where
  | ret (node : Option FileNode) (code : ErrorCode) (err : Option GoErr)
  | blocked
  | panic
deriving DecidableEq

/-- Model of `DLTGroup.markCachedFileReaded` (lines 266-281): log `fileId` into
`readedCachedFiles`, swap-remove slot `index` from the cache-available pool. -/
def markCachedFileReaded (g : DLTGroup) (fileId index : Nat) : DLTGroup :=
  let g1 := { g with
    readedCachedFiles := fupd g.readedCachedFiles g.readedCachedFileNum fileId
    readedCachedFileNum := inc32 g.readedCachedFileNum }
  let lastId := dec32 g1.cachedFileNum
  let g2 :=
    if index ≠ lastId then
      { g1 with
        cachedFiles := fupd g1.cachedFiles index (g1.cachedFiles lastId)
        cacheedFilesCache := fupd g1.cacheedFilesCache (g1.cachedFiles lastId) (inc32 index) }
    else g1
  { g2 with
    cacheedFilesCache := fupd g2.cacheedFilesCache fileId 0
    cachedFileNum := dec32 g2.cachedFileNum }

/-- Model of `DLTGroup.getRandomCachedFile` (lines 258-263). The first step is
`rand.Uint32() % g.cachedFileNum`: when `cachedFileNum = 0` this is a Go
integer-division-by-zero runtime panic, modelled as `.panic`. Note the
function otherwise always returns `true` as its Bool. -/
def getRandomCachedFile (g : DLTGroup) (r : Nat) : Res (Nat × Bool) DLTGroup :=
  if g.cachedFileNum = 0 then .panic
  else
    let randNum := r % g.cachedFileNum
    let fileId := g.cachedFiles randNum
    .ok (fileId, true) (markCachedFileReaded g fileId randNum)

/-- Model of `DLTGroup.getRandomUnreadedFile` (lines 284-305). -/
def getRandomUnreadedFile (g : DLTGroup) (r : Nat) : (Nat × Bool) × DLTGroup :=
  if g.unreadFileNum = 0 then ((0, false), g)
  else
    let randNum := r % g.unreadFileNum
    let fileId := g.unreadFiles randNum
    let lastId := dec32 g.unreadFileNum
    let g1 :=
      if randNum ≠ lastId then
        { g with
          unreadFiles := fupd g.unreadFiles randNum (g.unreadFiles lastId)
          unreadFilesIndexs := fupd g.unreadFilesIndexs (g.unreadFiles lastId) (inc32 randNum) }
      else g
    ((fileId, true),
      { g1 with
        unreadFilesIndexs := fupd g1.unreadFilesIndexs fileId 0
        unreadFileNum := dec32 g1.unreadFileNum })

/-- Model of `DLTGroup.addUnreadedFile` (lines 308-327): the producer-facing
`register_unread`. -/
def addUnreadedFile (g : DLTGroup) (fileId : Nat) : DLTGroup :=
  if g.unreadFilesIndexs fileId ≠ 0 then g
  else if g.readedFilesCache fileId then g
  else if g.cacheedFilesCache fileId ≠ 0 then g
  else
    { g with
      prereadFileNum := dec32 g.prereadFileNum
      unreadFiles := fupd g.unreadFiles g.unreadFileNum fileId
      unreadFileNum := inc32 g.unreadFileNum
      unreadFilesIndexs := fupd g.unreadFilesIndexs fileId (inc32 g.unreadFileNum) }

/-- Model of `DLTGroup.addFileToCache` (lines 330-366): the producer-facing part of
`land_in_cache`. The returned `Bool` records whether `cond.Signal()` was
issued (line 361). Note the three branches of the source verbatim: the
already-readed branch only touches the `readedCachedFiles` log, the
in-unread-list branch only removes from the unread pool, and only the
not-cached branch inserts into the cache-available pool and signals. -/
def addFileToCache (g : DLTGroup) (node : FileNode) : DLTGroup × Bool :=
  let fileId := node.fileId
  if g.readedFilesCache fileId then
    if g.readedCachedFiles fileId = 0 then
      ({ g with
          readedCachedFiles := fupd g.readedCachedFiles fileId g.readedCachedFileNum
          readedCachedFileNum := inc32 g.readedCachedFileNum }, false)
    else (g, false)
  else
    let orgIndex := g.unreadFilesIndexs fileId
    if orgIndex ≠ 0 then
      let g1 :=
        if orgIndex ≠ g.unreadFileNum then
          { g with unreadFiles := fupd g.unreadFiles (orgIndex - 1) (g.unreadFiles (dec32 g.unreadFileNum)) }
        else g
      ({ g1 with
          unreadFileNum := dec32 g1.unreadFileNum
          unreadFilesIndexs := fupd g1.unreadFilesIndexs fileId 0 }, false)
    else if g.cacheedFilesCache fileId = 0 then
      let g1 := { g with
        prereadFileNum := dec32 g.prereadFileNum
        cachedFiles := fupd g.cachedFiles g.cachedFileNum fileId
        cachedFileNum := inc32 g.cachedFileNum }
      let g2 := { g1 with cacheedFilesCache := fupd g1.cacheedFilesCache fileId g1.cachedFileNum }
      (g2, g2.hasWiated > 0)
    else (g, false)

/-- Model of `DLT.getFileFromCache` (lines 227-255). Returns the `(node, err)` pair of
the source together with the mutated group, or `.panic` (via
`getRandomCachedFile` on an empty pool). `dsCache` is
`t.dataset.cachedFiles`. -/
def getFileFromCache (g : DLTGroup) (dsCache : Nat → Option FileNode) (fileId r : Nat) :
    Res (Option FileNode × Option GoErr) DLTGroup :=
  let finish : DLTGroup → Nat → Res (Option FileNode × Option GoErr) DLTGroup :=
    fun g' tempId =>
      match dsCache tempId with
      | none => .ok (none, some (.markedCachedButNot tempId)) g'
      | some node => .ok (some node, none) g'
  if g.readedFilesCache fileId then
    match getRandomCachedFile g r with
    | .panic => .panic
    | .ok (tempId, ok) g' =>
      if !ok then .ok (none, some .cantGetCachedFile) g' else finish g' tempId
  else if g.cacheedFilesCache fileId = 0 then
    match getRandomCachedFile g r with
    | .panic => .panic
    | .ok (tempId, ok) g' =>
      if !ok then .ok (none, some .cantGetCachedFile) g' else finish g' tempId
  else
    finish (markCachedFileReaded g fileId (g.cacheedFilesCache fileId - 1)) fileId

/-- The body of `DLT.Get` after partition resolution (lines 130-223),
acting on one group and the shared content cache. `fetch` models
`readFromBackend` for candidate id `tempId` (`none` = fetch error).
Reaching `cond.Wait` (line 207) yields `.blocked` with `hasWiated`
already incremented; the continuation after a wake is `getAfterWake`. -/
def getOnGroup (fetch : Nat → Option FileNode) (r : Nat) (g : DLTGroup)
    (dsCache : Nat → Option FileNode) (fileId : Nat) :
    GetOut × DLTGroup × (Nat → Option FileNode) :=
  if g.readedFilesReal fileId then
    (.ret none .CODE_EMPTY (some (.readAgain fileId)), g, dsCache)
  else if g.cachedFileNum ≠ 0 then
    match getFileFromCache g dsCache fileId r with
    | .panic => (.panic, g, dsCache)
    | .ok (node?, err?) g' =>
      match err? with
      | some e => (.ret none .CODE_EMPTY (some e), g', dsCache)
      | none =>
        match node? with
        | none => (.ret none .CODE_EMPTY (some (.noCacheButNum g'.cachedFileNum)), g', dsCache)
        | some node =>
          (.ret (some node) .CODE_OK none,
            { g' with
              readedFilesCache := bmSet g'.readedFilesCache node.fileId
              readedFilesReal := bmSet g'.readedFilesReal fileId }, dsCache)
  else if g.unreadFileNum ≠ 0 then
    let picked : (Nat × Bool) × DLTGroup :=
      if g.readedFilesCache fileId then getRandomUnreadedFile g r
      else ((fileId, true), g)
    let tempId := picked.1.1
    let g0 := picked.2
    if !picked.1.2 then
      (.ret none .CODE_EMPTY (some (.noUnreadButNum g0.unreadFileNum)), g0, dsCache)
    else
      let g1 := { g0 with
        readedFilesCache := bmSet g0.readedFilesCache tempId
        readedFilesReal := bmSet g0.readedFilesReal fileId }
      let index := g1.unreadFilesIndexs tempId
      let g2 :=
        if index ≠ 0 then
          let lastId := dec32 g1.unreadFileNum
          let g1a :=
            if index ≠ lastId then
              { g1 with
                unreadFiles := fupd g1.unreadFiles index (g1.unreadFiles lastId)
                unreadFilesIndexs := fupd g1.unreadFilesIndexs (g1.unreadFiles lastId) index }
            else g1
          { g1a with
            unreadFilesIndexs := fupd g1a.unreadFilesIndexs tempId 0
            unreadFileNum := dec32 g1a.unreadFileNum }
        else g1
      match fetch tempId with
      | none => (.ret none .CODE_EMPTY (some .fetchFailed), g2, dsCache)
      | some node =>
        if g2.group.allowCacheSize ≥ g2.group.cachedSize then
          (.ret (some node) .CODE_EMPTY none,
            { g2 with
              readedCachedFiles := fupd g2.readedCachedFiles g2.readedCachedFileNum tempId
              readedCachedFileNum := inc32 g2.readedCachedFileNum },
            cupd dsCache tempId (some node))
        else (.ret (some node) .CODE_EMPTY none, g2, dsCache)
  else if 0 < g.prereadFileNum then
    (.blocked, { g with hasWiated := g.hasWiated + 1 }, dsCache)
  else
    (.ret none .CODE_EMPTY (some (.noUnreadFile fileId)), g, dsCache)

/-- Model of `DLT.Get` (lines 101-224): init check, name resolution, partition
resolution, then `getOnGroup` on the resolved partition. An out-of-range
partition index would be a Go panic. -/
def dltGet (ds : Dataset) (fetch : Nat → Option FileNode) (r : Nat)
    (st : SysState) (fileName : String) : GetOut × SysState :=
  if !st.dlt.inited then (.ret none .CODE_DLT_NOT_INIT none, st)
  else
    match ds.getFileId fileName with
    | none => (.ret none .CODE_NOT_FOUND none, st)
    | some fileId =>
      let groupId := ds.fileIdToGroups fileId
      match st.dlt.groups.get? groupId with
      | none => (.panic, st)
      | some g =>
        let (out, g', c') := getOnGroup fetch r g st.dsCache fileId
        (out,
          { dlt := { st.dlt with groups := st.dlt.groups.set groupId g' }
            dsCache := c' })

/-- Modelled from the spec: the producer-side `land_in_cache(file_id,
content)` entry point. The partition-state bookkeeping is `addFileToCache`
(from the source); the insertion of the fetched content into the dataset's
shared content cache (§6, content cache `insert(file_id, Content)`) is not in
src/ — the producer code that performs it before handing the node to
`addFileToCache` is missing — so it is modelled here per the spec's words.
Returns the new state and whether a waiter was signalled. -/
def landInCache (st : SysState) (groupId : Nat) (node : FileNode) :
    SysState × Bool :=
  match st.dlt.groups.get? groupId with
  | none => (st, false)
  | some g =>
    let (g', sig) := addFileToCache g node
    ({ dlt := { st.dlt with groups := st.dlt.groups.set groupId g' }
       dsCache := cupd st.dsCache node.fileId (some node) }, sig)

/-!
Concrete scenario material shared by the claim theorems below.
The external catalog maps file names to ids; in the scenario datasets the
name of the n-th file is the decimal string of n, resolved to id n-1
(ids are 0-based: every array and bitmap of a partition with `fileNum` files
is indexed by ids `0 .. fileNum-1`).
-/

/-- Scenario dataset with one partition of two files, ids 0 and 1
(names "1" and "2"). -/
def dsTwo : Dataset where
  id := 7
  groupNum := 1
  groupsMeta := fun _ => { id := 0, fileNum := 2, allowCacheSize := 0, cachedSize := 0 }
  getFileId := fun n => if n = "1" then some 0 else if n = "2" then some 1 else none
  fileIdToGroups := fun _ => 0

/-- A pass freshly initialized against `dsTwo`, with an empty content cache. -/
def stTwo : SysState where
  dlt := dltInit { id := 1, fileNum := 2, readedFileNum := 0, groups := [], inited := false } dsTwo
  dsCache := fun _ => none

/-- The content `X` the producer lands for file id 0 in the C2 scenario. -/
def nodeX : FileNode := { fileId := 0, data := 42 }

/-- State of the C2 scenario after `land_in_cache(0, X)` and before any get. -/
def stTwoLanded : SysState := (landInCache stTwo 0 nodeX).1

/-- The single partition state of `stTwoLanded`. -/
def gLanded : DLTGroup := (addFileToCache (initGroup (dsTwo.groupsMeta 0)) nodeX).1

/-- Scenario dataset with one partition of three files, ids 0,1,2
(names "1","2","3"), with cache admission allowed. -/
def dsThree : Dataset where
  id := 7
  groupNum := 1
  groupsMeta := fun _ => { id := 0, fileNum := 3, allowCacheSize := 1, cachedSize := 0 }
  getFileId := fun n =>
    if n = "1" then some 0 else if n = "2" then some 1 else if n = "3" then some 2 else none
  fileIdToGroups := fun _ => 0

/-- A backend that returns, for candidate id `i`, a node with distinct
content `100 + i`. -/
def fetchSeq : Nat → Option FileNode := fun i => some { fileId := i, data := 100 + i }

/-- A pass freshly initialized against `dsThree`, with an empty content
cache. -/
def stThree : SysState where
  dlt := dltInit { id := 1, fileNum := 3, readedFileNum := 0, groups := [], inited := false } dsThree
  dsCache := fun _ => none

/-- A freshly initialized two-file partition state (used as witness input). -/
def gFresh : DLTGroup := initGroup { id := 0, fileNum := 2, allowCacheSize := 0, cachedSize := 0 }

/-- A two-file partition state in which one get for id 0 has already
completed: the delivered-as-requested bit of id 0 is set. -/
def gDelivered : DLTGroup := { gFresh with readedFilesReal := bmSet (fun _ => false) 0 }

/-- C1: once the delivered-as-requested bit (`readedFilesReal`) of a file id
is set, any subsequent get for that id fails with the AlreadyRequested error
("read angin", `CODE_EMPTY`), returns no content, and leaves the partition
state and the content cache unchanged — the check is the first step of the
locked section, before any state change. -/
theorem c1_get_fails_after_delivered_bit (fetch : Nat → Option FileNode) (r : Nat)
    (g : DLTGroup) (c : Nat → Option FileNode) (fileId : Nat)
    (h : g.readedFilesReal fileId = true) :
    getOnGroup fetch r g c fileId =
      (.ret none .CODE_EMPTY (some (.readAgain fileId)), g, c) := by
  simp [getOnGroup, h]

/-- Witness for C1 at a concrete state: in `gDelivered` the bit of id 0 is
set, and a get for id 0 fails with AlreadyRequested and changes nothing. -/
theorem c1_get_fails_after_delivered_bit_witness :
    getOnGroup (fun _ => none) 0 gDelivered (fun _ => none) 0 =
      (.ret none .CODE_EMPTY (some (.readAgain 0)), gDelivered, fun _ => none) :=
  c1_get_fails_after_delivered_bit (fun _ => none) 0 gDelivered (fun _ => none) 0 (by decide)

/-- Cache-available pool size of `gLanded` is 1 (only id 0 landed). -/
theorem gLanded_cachedFileNum : gLanded.cachedFileNum = 1 := rfl

/-- With exactly one cached file, the random draw `r % 1` is 0 for every `r`:
`getRandomCachedFile` on `gLanded` does not depend on the random value. -/
theorem getRandomCachedFile_gLanded (r : Nat) :
    getRandomCachedFile gLanded r = getRandomCachedFile gLanded 0 := by
  unfold getRandomCachedFile
  rw [gLanded_cachedFileNum]
  simp [Nat.mod_one]

/-- The cache read of the C2 scenario is independent of the random value. -/
theorem getFileFromCache_gLanded (r : Nat) :
    getFileFromCache gLanded stTwoLanded.dsCache 1 r =
      getFileFromCache gLanded stTwoLanded.dsCache 1 0 := by
  unfold getFileFromCache
  rw [show gLanded.readedFilesCache 1 = false from rfl,
    show gLanded.cacheedFilesCache 1 = 0 from rfl, getRandomCachedFile_gLanded r]

/-- The C2 get on the landed partition is independent of the random value. -/
theorem getOnGroup_gLanded (f : Nat → Option FileNode) (r : Nat) :
    getOnGroup f r gLanded stTwoLanded.dsCache 1 =
      getOnGroup f 0 gLanded stTwoLanded.dsCache 1 := by
  unfold getOnGroup
  rw [show gLanded.readedFilesReal 1 = false from rfl, gLanded_cachedFileNum,
    getFileFromCache_gLanded r]
  simp

/-- The full C2 call `get("2")` is independent of the random value. -/
theorem dltGet_stTwoLanded (f : Nat → Option FileNode) (r : Nat) :
    dltGet dsTwo f r stTwoLanded "2" = dltGet dsTwo f 0 stTwoLanded "2" := by
  simp only [dltGet, show dsTwo.getFileId "2" = some 1 from rfl,
    show stTwoLanded.dlt.groups.get? (dsTwo.fileIdToGroups 1) = some gLanded from rfl,
    getOnGroup_gLanded f r]

/-- C2: in a two-file partition where the producer landed content `X` for
file id 0 (name "1") before any get, a get for file id 1 (name "2", not
cached) is served by substitution from the cache-available pool for every
random draw `r`: it returns content `X` with `CODE_OK`, sets the
delivered-as-requested bit of id 1, marks id 0 consumed-from-pool
(`readedFilesCache 0 = true`) and removes id 0's slot from the
cache-available pool (`cacheedFilesCache 0 = 0`, pool size back to 0). -/
theorem c2_substitution_scenario (r : Nat) :
    (dltGet dsTwo (fun _ => none) r stTwoLanded "2").1 =
      .ret (some nodeX) .CODE_OK none ∧
    ((dltGet dsTwo (fun _ => none) r stTwoLanded "2").2.dlt.groups.get? 0).map
      (fun g => (g.readedFilesReal 1, g.readedFilesCache 0,
                 g.cacheedFilesCache 0, g.cachedFileNum))
      = some (true, true, 0, 0) := by
  rw [dltGet_stTwoLanded (fun _ => none) r]
  exact ⟨rfl, rfl⟩

/-- C5 counterexample: on a fresh three-file partition a get for file "1"
whose backend fetch fails propagates the error, yet the resulting state has
the delivered-as-requested bit of id 0 AND the consumed-from-pool bit of the
candidate (id 0) set — they were set at lines 165-167, before the lock was
released for the fetch — refuting "neither bit is set". -/
theorem c5_counterexample_bits_set_on_fetch_failure :
    (dltGet dsThree (fun _ => none) 0 stThree "1").1 =
      .ret none .CODE_EMPTY (some .fetchFailed) ∧
    ((dltGet dsThree (fun _ => none) 0 stThree "1").2.dlt.groups.get? 0).map
      (fun g => (g.readedFilesReal 0, g.readedFilesCache 0)) = some (true, true) :=
  ⟨rfl, rfl⟩

/-- C5 amended: in the direct-fetch path (no cache, unread pool non-empty,
requested id not replaced, so the candidate is the requested id itself), if
the backend fetch fails then get propagates the error and returns no content,
but the delivered-as-requested bit of the requested id and the
consumed-from-pool bit of the candidate have already been set before the
fetch and remain set. -/
theorem c5_amended_fetch_failure_bits_already_set (fetch : Nat → Option FileNode)
    (r : Nat) (g : DLTGroup) (c : Nat → Option FileNode) (fileId : Nat)
    (h1 : g.readedFilesReal fileId = false) (h2 : g.cachedFileNum = 0)
    (h3 : g.unreadFileNum ≠ 0) (h4 : g.readedFilesCache fileId = false)
    (h5 : fetch fileId = none) :
    (getOnGroup fetch r g c fileId).1 = .ret none .CODE_EMPTY (some .fetchFailed) ∧
    (getOnGroup fetch r g c fileId).2.1.readedFilesReal fileId = true ∧
    (getOnGroup fetch r g c fileId).2.1.readedFilesCache fileId = true := by
  simp [getOnGroup, h1, h2, h3, h4, h5, bmSet]
  split <;> (try split) <;> simp [bmSet]

/-- Witness for the amended C5 at a concrete input: a fresh two-file
partition, requested id 0, failing backend. -/
theorem c5_amended_fetch_failure_bits_already_set_witness :
    (getOnGroup (fun _ => none) 0 gFresh (fun _ => none) 0).1 =
      .ret none .CODE_EMPTY (some .fetchFailed) ∧
    (getOnGroup (fun _ => none) 0 gFresh (fun _ => none) 0).2.1.readedFilesReal 0 = true ∧
    (getOnGroup (fun _ => none) 0 gFresh (fun _ => none) 0).2.1.readedFilesCache 0 = true :=
  c5_amended_fetch_failure_bits_already_set (fun _ => none) 0 gFresh (fun _ => none) 0
    rfl rfl (by decide) rfl rfl

/-- C8 counterexample: a partition whose budget has `used = allowed`
(`cachedSize = allowCacheSize = 5`): the direct-fetch success path still
inserts the fetched content into the shared content cache (line 194 tests
`allowCacheSize >= cachedSize`, not `used < allowed`), refuting "inserted
only when used < allowed". -/
theorem c8_counterexample_insert_at_budget_equality :
    ¬ ((5 : Nat) < 5) ∧
    (getOnGroup fetchSeq 0
        (initGroup { id := 0, fileNum := 1, allowCacheSize := 5, cachedSize := 5 })
        (fun _ => none) 0).1 =
      .ret (some { fileId := 0, data := 100 }) .CODE_EMPTY none ∧
    (getOnGroup fetchSeq 0
        (initGroup { id := 0, fileNum := 1, allowCacheSize := 5, cachedSize := 5 })
        (fun _ => none) 0).2.2 0 = some { fileId := 0, data := 100 } :=
  ⟨by decide, rfl, rfl⟩

/-- C8 amended: after a successful direct fetch, the content is inserted into
the shared content cache exactly when `allowCacheSize ≥ cachedSize` (i.e.
also when used equals allowed); when `allowCacheSize < cachedSize` the cache
is untouched; and the budget itself is never updated — the partition
metadata, including `cachedSize`, is unchanged by the call. (The admission
test runs before the lock is reacquired; only the insertion itself is under
the lock.) -/
theorem c8_amended_admission_when_allowed_ge_used (fetch : Nat → Option FileNode)
    (r : Nat) (g : DLTGroup) (c : Nat → Option FileNode) (fileId : Nat)
    (node : FileNode)
    (h1 : g.readedFilesReal fileId = false) (h2 : g.cachedFileNum = 0)
    (h3 : g.unreadFileNum ≠ 0) (h4 : g.readedFilesCache fileId = false)
    (h5 : fetch fileId = some node) :
    (getOnGroup fetch r g c fileId).2.1.group = g.group ∧
    (g.group.allowCacheSize ≥ g.group.cachedSize →
      (getOnGroup fetch r g c fileId).2.2 fileId = some node) ∧
    (g.group.allowCacheSize < g.group.cachedSize →
      (getOnGroup fetch r g c fileId).2.2 = c) := by
  simp [getOnGroup, h1, h2, h3, h4, h5, cupd]
  refine ⟨?_, ?_, ?_⟩
  · split <;> (try split) <;> (try split) <;> simp
  · intro hle
    split <;> (try split) <;> simp_all [cupd]
  · intro hlt
    split <;> (try split) <;> (try split) <;> simp_all [cupd] <;> omega

/-- Witness for the amended C8 at a concrete input: fresh two-file partition
(budget `0 ≥ 0`, so admission applies), requested id 0, succeeding backend. -/
theorem c8_amended_admission_when_allowed_ge_used_witness :
    (getOnGroup fetchSeq 0 gFresh (fun _ => none) 0).2.1.group = gFresh.group ∧
    (gFresh.group.allowCacheSize ≥ gFresh.group.cachedSize →
      (getOnGroup fetchSeq 0 gFresh (fun _ => none) 0).2.2 0 =
        some { fileId := 0, data := 100 }) ∧
    (gFresh.group.allowCacheSize < gFresh.group.cachedSize →
      (getOnGroup fetchSeq 0 gFresh (fun _ => none) 0).2.2 = fun _ => none) :=
  c8_amended_admission_when_allowed_ge_used fetchSeq 0 gFresh (fun _ => none) 0
    { fileId := 0, data := 100 } rfl rfl (by decide) rfl rfl

/-- C9: `addUnreadedFile` (`register_unread`) is idempotent for an id not yet
consumed-from-pool, provided the pool counter does not overflow `uint32`
(true of every partition sized below 2^32): a second call observes the
non-zero position entry written by the first and returns without any state
change, so two calls equal one call — no duplicate insertion and no double
decrement of the in-flight counter. -/
theorem c9_register_unread_idempotent (g : DLTGroup) (i : Nat)
    (hn : g.unreadFileNum + 1 < 4294967296) (hc : g.readedFilesCache i = false) :
    addUnreadedFile (addUnreadedFile g i) i = addUnreadedFile g i := by
  by_cases h1 : g.unreadFilesIndexs i ≠ 0
  · simp [addUnreadedFile, h1]
  · by_cases h3 : g.cacheedFilesCache i ≠ 0
    · simp [addUnreadedFile, h1, hc, h3]
    · have key : inc32 g.unreadFileNum ≠ 0 := by
        simp only [inc32]
        omega
      simp [addUnreadedFile, h1, hc, h3, fupd, key]

/-- Witness for C9 at a concrete input: a fresh two-file partition and id 0. -/
theorem c9_register_unread_idempotent_witness :
    addUnreadedFile (addUnreadedFile gFresh 0) 0 = addUnreadedFile gFresh 0 :=
  c9_register_unread_idempotent gFresh 0 (by decide) rfl

/-- C10: for a partition whose in-flight counter (`prereadFileNum`, a Go
`uint32`) is 0 and an id that is not unread, not consumed and not cached,
both `addUnreadedFile` (`register_unread`) and `addFileToCache`
(`land_in_cache`) decrement the counter without a zero check, wrapping it to
2^32 - 1; the step-4 test of `Get` (line 205, `prereadFileNum > 0`) then
evaluates true. -/
theorem c10_inflight_counter_underflow (g : DLTGroup) (i d : Nat)
    (h1 : g.prereadFileNum = 0) (h2 : g.unreadFilesIndexs i = 0)
    (h3 : g.readedFilesCache i = false) (h4 : g.cacheedFilesCache i = 0) :
    (addUnreadedFile g i).prereadFileNum = 4294967295 ∧
    0 < (addUnreadedFile g i).prereadFileNum ∧
    ((addFileToCache g { fileId := i, data := d }).1).prereadFileNum = 4294967295 ∧
    0 < ((addFileToCache g { fileId := i, data := d }).1).prereadFileNum := by
  simp [addUnreadedFile, addFileToCache, h1, h2, h3, h4, dec32]

/-- Witness for C10 at a concrete input: a fresh two-file partition
(counter 0, id 0 not unread, not consumed, not cached). -/
theorem c10_inflight_counter_underflow_witness :
    (addUnreadedFile gFresh 0).prereadFileNum = 4294967295 ∧
    0 < (addUnreadedFile gFresh 0).prereadFileNum ∧
    ((addFileToCache gFresh { fileId := 0, data := 9 }).1).prereadFileNum = 4294967295 ∧
    0 < ((addFileToCache gFresh { fileId := 0, data := 9 }).1).prereadFileNum :=
  c10_inflight_counter_underflow gFresh 0 9 rfl rfl rfl rfl

end Bcache
